import Mathlib

/-
Shallow embedding of `UpSession.go` (btcagent upstream session): the
connection/handshake state machine, the four JSON-RPC response handlers,
the Ex-Message frame reader, and the init response-consumption loop.

Go dynamic values decoded from JSON (`interface{}`) are modelled by
`JSONValue`; JSON numbers (Go `float64`) are modelled by `Rat`, with Go's
`int(float64)` conversion modelled as truncation toward zero. Byte streams
are `List Nat`; fallible reads return `Option`. A Go runtime panic is
modelled as `Option.none` at the outcome level.
-/

namespace BtcAgent

/-- Dynamically typed JSON value, the model of a decoded Go `interface{}`:
arrays decode to `[]interface{}`, objects to `map[string]interface{}`,
numbers to `float64` (modelled as `Rat`), plus strings, booleans and null. -/
inductive JSONValue where
  | null
  | bool (b : Bool)
  | num (x : Rat)
  | str (s : String)
  | arr (items : List JSONValue)
  | obj (fields : List (String × JSONValue))

/-- Go type assertion `v.(bool)`. -/
def JSONValue.asBool : JSONValue → Option Bool
  | .bool b => some b
  | _ => none

/-- Go type assertion `v.(string)`. -/
def JSONValue.asStr : JSONValue → Option String
  | .str s => some s
  | _ => none

/-- Go type assertion `v.([]interface\x7b\x7d)`. -/
def JSONValue.asArr : JSONValue → Option (List JSONValue)
  | .arr items => some items
  | _ => none

/-- Go type assertion `v.(map[string]interface\x7b\x7d)`. -/
def JSONValue.asObj : JSONValue → Option (List (String × JSONValue))
  | .obj fields => some fields
  | _ => none

/-- Go map lookup `m[key]` on a string-keyed object. -/
def lookupObj (fields : List (String × JSONValue)) (key : String) : Option JSONValue :=
  (fields.find? (fun p => p.1 == key)).map (·.2)

/-- Go `int(f)` on a `float64`: truncation toward zero. -/
def truncRat (q : Rat) : Int :=
  Int.tdiv q.num q.den

/-- Value of one hexadecimal digit, as accepted by Go `strconv.ParseUint`
with base 16 (digits `0-9`, `a-f`, `A-F`; no prefix, sign or underscores). -/
def hexDigitVal (c : Char) : Option Nat :=
  if '0' ≤ c ∧ c ≤ '9' then some (c.toNat - 48)
  else if 'a' ≤ c ∧ c ≤ 'f' then some (c.toNat - 87)
  else if 'A' ≤ c ∧ c ≤ 'F' then some (c.toNat - 55)
  else none

/-- Go `strconv.ParseUint(s, 16, 32)`: `none` on the empty string, on any
non-hex character, and on overflow past 32 bits (Go reports `ErrRange`,
which the callers treat as failure). -/
def parseHexUint32 (sv : String) : Option Nat :=
  if sv.isEmpty then none
  else
    match sv.data.mapM hexDigitVal with
    | none => none
    | some ds =>
      let v := ds.foldl (fun a d => a * 16 + d) 0
      if v < 4294967296 then some v else none

/-- Modelled from the spec: the `AuthorizeStat` status enum is declared
outside this file; the spec gives the ordered set
Disconnected → Connecting → Connected → SubScribed → Authorized. -/
inductive AuthorizeStat where
  | StatDisconnected
  | StatConnecting
  | StatConnected
  | StatSubScribed
  | StatAuthorized
deriving DecidableEq

/-- The mutable state of one upstream session (`UpSession` struct).
`connClosed` records that `serverConn.Close()` has been called on the
current connection. The `manager`, `config` and `serverConn`/`serverReader`
handles themselves are external collaborators: the dial outcome and the
inbound byte stream are passed to the modelled operations as explicit
inputs, and config is only read for logging in the modelled code. -/
structure UpSession where
  subAccount : String
  poolIndex : Nat
  stratumSessions : List (Nat × Nat)
  stat : AuthorizeStat
  sessionID : Nat
  versionMask : Nat
  extraNonce2Size : Int
  serverCapsVerRol : Bool
  serverCapsSubRes : Bool
  eventChannel : Option Nat
  connClosed : Bool
deriving DecidableEq

/-- `NewUpSession`: fields not assigned keep their Go zero values
(`eventChannel` stays nil, numeric fields 0, booleans false). -/
def NewUpSession (subAccount : String) (poolIndex : Nat) : UpSession :=
  { subAccount := subAccount
    poolIndex := poolIndex
    stratumSessions := []
    stat := .StatDisconnected
    sessionID := 0
    versionMask := 0
    extraNonce2Size := 0
    serverCapsVerRol := false
    serverCapsSubRes := false
    eventChannel := none
    connClosed := false }

/-- `UpSession.close`: set Disconnected and close the connection. -/
def close (s : UpSession) : UpSession :=
  { s with stat := .StatDisconnected, connClosed := true }

/-- `UpSession.connect`: sets Connecting, then dials; `dialOk` is the
outcome of the external `net.DialTimeout`. On failure it reverts to
Disconnected and reports the error (the `Bool` component); on success the
new connection is open and status is Connected. -/
def connect (dialOk : Bool) (s : UpSession) : UpSession × Bool :=
  let s1 := { s with stat := AuthorizeStat.StatConnecting }
  if dialOk then ({ s1 with stat := .StatConnected, connClosed := false }, false)
  else ({ s1 with stat := .StatDisconnected }, true)

/-- An error value returned by `writeJSONRequestToServer` (either
`ErrConnectionClosed`, a serialization failure, or a socket write error). -/
inductive GoErr where
  | connectionClosed
  | writeFailed (n : Nat)
deriving DecidableEq

/-- `UpSession.initSendRequest`. The named return `err` starts as Go's zero
value nil and the source never assigns it: each of the four
`up.writeJSONRequestToServer(&request)` calls is an expression statement
whose `(int, error)` results are discarded (modelled by the `let` wildcard
binding of the externally supplied write outcome `writes i`), after which
the source tests the still-nil `err`. -/
def initSendRequest (writes : Fin 4 → Option GoErr) : Option GoErr :=
  let err : Option GoErr := none
  let _ := writes 0
  if err.isSome then err
  else
    let _ := writes 1
    if err.isSome then err
    else
      let _ := writes 2
      if err.isSome then err
      else
        let _ := writes 3
        if err.isSome then err
        else err

/-- A decoded JSON-RPC line (external collaborator `JSONRPCLine`), exposing
`ID`, `Method`, `Params`, `Result` and `Error` as the source reads them. -/
structure JSONRPCLine where
  ID : String
  Method : String
  Params : List JSONValue
  Result : JSONValue
  Err : JSONValue

/-- `handleSetVersionMask`: if a first param exists it must be a string
parsing as a 32-bit hex value; otherwise the update is skipped. -/
def handleSetVersionMask (rpcData : JSONRPCLine) (s : UpSession) : UpSession :=
  match rpcData.Params with
  | [] => s
  | p0 :: _ =>
    match p0.asStr with
    | none => s
    | some versionMaskHex =>
      match parseHexUint32 versionMaskHex with
      | none => s
      | some versionMask => { s with versionMask := versionMask }

/-- `handleSubScribeResponse`: result must be an array of length ≥ 3;
element 1 a hex string parsed as uint32 (stored into `sessionID` before
element 2 is examined); element 2 a number truncated to `extraNonce2Size`;
a width < 6 closes the session, otherwise status becomes SubScribed.
Every validation failure closes the session. -/
def handleSubScribeResponse (rpcData : JSONRPCLine) (s : UpSession) : UpSession :=
  match rpcData.Result with
  | .arr result =>
    if result.length < 3 then close s
    else
      match result.get? 1 with
      | some (JSONValue.str sessionIDHex) =>
        match parseHexUint32 sessionIDHex with
        | none => close s
        | some sessionID =>
          let s1 := { s with sessionID := sessionID }
          match result.get? 2 with
          | some (JSONValue.num extraNonce2SizeFloat) =>
            let s2 := { s1 with extraNonce2Size := truncRat extraNonce2SizeFloat }
            if s2.extraNonce2Size < 6 then close s2
            else { s2 with stat := .StatSubScribed }
          | _ => close s1
      | _ => close s
  | _ => close s

/-- `handleConfigureResponse`: only logs. -/
def handleConfigureResponse (_rpcData : JSONRPCLine) (s : UpSession) : UpSession :=
  s

/-- One iteration of the capabilities loop: the Go `switch capability`
compares the dynamic value against the string constants. -/
def applyCapability (s : UpSession) (capability : JSONValue) : UpSession :=
  match capability with
  | .str "verrol" => { s with serverCapsVerRol := true }
  | .str "subres" => { s with serverCapsSubRes := true }
  | _ => s

/-- `handleGetCapsResponse`. The source logs each shape failure but does
not return: a failed object assertion leaves `result` the nil map, a
missed key leaves `caps` the nil interface, a failed array assertion
leaves `capsArr` the nil slice — each modelled by `getD` with the
corresponding zero value — so the loop body runs zero times and the
session state is untouched. The trailing warnings do not mutate state. -/
def handleGetCapsResponse (rpcData : JSONRPCLine) (s : UpSession) : UpSession :=
  let result := rpcData.Result.asObj.getD []
  let caps := (lookupObj result "capabilities").getD JSONValue.null
  let capsArr := caps.asArr.getD []
  capsArr.foldl applyCapability s

/-- `handleAuthorizeResponse`: result must be the boolean `true`;
`!ok || !result` closes the session, success sets Authorized. -/
def handleAuthorizeResponse (rpcData : JSONRPCLine) (s : UpSession) : UpSession :=
  match rpcData.Result.asBool with
  | some true => { s with stat := .StatAuthorized }
  | _ => close s

/-- Dispatch of a decoded line in `initReadLine`: a nonempty `Method`
routes pool-initiated requests (`mining.set_version_mask` handled,
`mining.set_difficulty` and `mining.notify` ignored, others logged);
otherwise the response is routed by its `ID` string. -/
def dispatchRpcLine (rpcData : JSONRPCLine) (s : UpSession) : UpSession :=
  if 0 < rpcData.Method.length then
    match rpcData.Method with
    | "mining.set_version_mask" => handleSetVersionMask rpcData s
    | "mining.set_difficulty" => s
    | "mining.notify" => s
    | _ => s
  else
    match rpcData.ID with
    | "sub" => handleSubScribeResponse rpcData s
    | "conf" => handleConfigureResponse rpcData s
    | "caps" => handleGetCapsResponse rpcData s
    | "auth" => handleAuthorizeResponse rpcData s
    | _ => s

/-- `initReadLine` after the line has been read: `decoded` is the result of
`NewJSONRPCLine` (an external collaborator); a decode failure (`none`) is
logged and ignored, leaving the session untouched. The read-error branch
is carried by `InboundUnit.ioError` at the dispatcher level. -/
def initReadLine (decoded : Option JSONRPCLine) (s : UpSession) : UpSession :=
  match decoded with
  | none => s
  | some rpcData => dispatchRpcLine rpcData s

/-- `bufio.Reader.ReadBytes(delim)`: reads up to and including the first
occurrence of the delimiter byte; `none` models the error returned when
the stream ends before the delimiter is found (the callers then close, so
the partial data is irrelevant). -/
def readBytesDelim (delim : Nat) : List Nat → Option (List Nat × List Nat)
  | [] => none
  | b :: rest =>
    if b = delim then some ([b], rest)
    else
      match readBytesDelim delim rest with
      | none => none
      | some (pre, post) => some (b :: pre, post)

/-- `binary.LittleEndian.Uint16`: panics (`none`) on a slice shorter
than 2 bytes. -/
def littleEndianUint16 : List Nat → Option Nat
  | b0 :: b1 :: _ => some (b0 + 256 * b1)
  | _ => none

/-- `bufio.Reader.Discard(n)`: errors when fewer than `n` bytes remain. -/
def discardBytes (n : Nat) (bytes : List Nat) : Option (List Nat) :=
  if n ≤ bytes.length then some (bytes.drop n) else none

/-- Outcome of reading one Ex-Message frame: the frame was consumed and
`rest` remains, or the session was closed on an error, or the Go runtime
panicked (out-of-range slice index). -/
inductive ExMsgOutcome where
  | ok (rest : List Nat)
  | closed
  | panicked
deriving DecidableEq

/-- `initReadExMessage` on the inbound byte stream. The source calls
`up.serverReader.ReadBytes(4)` — `4` is a *delimiter*, so the "header" is
whatever precedes the first `0x04` byte — computes the little-endian
length from `header[2:]` (a panic when fewer than 2 bytes follow position
2), closes on a declared length < 4, and otherwise discards `length − 4`
further bytes. -/
def initReadExMessage (bytes : List Nat) : ExMsgOutcome :=
  match readBytesDelim 4 bytes with
  | none => .closed
  | some (header, rest) =>
    match littleEndianUint16 (header.drop 2) with
    | none => .panicked
    | some len =>
      if len < 4 then .closed
      else
        let body := len - 4
        if 0 < body then
          match discardBytes body rest with
          | none => .closed
          | some rest2 => .ok rest2
        else .ok rest

/-- One inbound unit as classified by `initHandleResponse`'s one-byte peek:
an I/O error on peek/read (fatal), an Ex-Message frame (first byte is the
magic number), or a newline-terminated line with its JSON decode result. -/
inductive InboundUnit where
  | ioError
  | ex (bytes : List Nat)
  | line (decoded : Option JSONRPCLine)

/-- `initHandleResponse`: classify and handle one inbound unit. `none`
models a Go runtime panic inside the Ex-Message reader. -/
def initHandleResponse (u : InboundUnit) (s : UpSession) : Option UpSession :=
  match u with
  | .ioError => some (close s)
  | .ex bytes =>
    match initReadExMessage bytes with
    | .ok _ => some s
    | .closed => some (close s)
    | .panicked => none
  | .line decoded => some (initReadLine decoded s)

/-- The `Init` response-consumption loop: repeat `initHandleResponse`
while status is none of Authorized, Disconnected, Connecting. The modelled
stream is finite; an exhausted stream stops the loop (the real loop would
block for more input). -/
def initLoop (units : List InboundUnit) (s : UpSession) : Option UpSession :=
  if s.stat = .StatAuthorized ∨ s.stat = .StatDisconnected ∨ s.stat = .StatConnecting then
    some s
  else
    match units with
    | [] => some s
    | u :: rest =>
      match initHandleResponse u s with
      | some s2 => initLoop rest s2
      | none => none

/-- `UpSession.Init`: connect; on dial failure return (status already
Disconnected); send the four requests, closing on a reported send error;
then run the response-consumption loop. -/
def Init (dialOk : Bool) (writes : Fin 4 → Option GoErr) (units : List InboundUnit)
    (s : UpSession) : Option UpSession :=
  let c := connect dialOk s
  if c.2 then some c.1
  else
    match initSendRequest writes with
    | some _ => some (close c.1)
    | none => initLoop units c.1

/-- Go map assignment `m[k] = v`: overwrite any entry with the same key. -/
def mapInsert (k v : Nat) (m : List (Nat × Nat)) : List (Nat × Nat) :=
  (k, v) :: m.filter (fun p => p.1 != k)

/-- `UpSession.addStratumSession` (event-loop consumer): record the
downstream session under its own sessionID. The back-reference set on the
downstream session is external. -/
def addStratumSession (sessionID handle : Nat) (s : UpSession) : UpSession :=
  { s with stratumSessions := mapInsert sessionID handle s.stratumSessions }


/-! Concrete inputs used by the witnesses below. -/

/-- A fresh session as built by `NewUpSession`. -/
def s0 : UpSession := NewUpSession "acct" 0

/-- A well-formed subscribe response: session id `ff`, width 8. -/
def rpcSubOk : JSONRPCLine :=
  { ID := "sub", Method := "", Params := [],
    Result := JSONValue.arr [JSONValue.null, JSONValue.str "ff", JSONValue.num 8],
    Err := JSONValue.null }

/-- A subscribe response that is well-formed except for width 4 < 6. -/
def rpcSubShort : JSONRPCLine :=
  { ID := "sub", Method := "", Params := [],
    Result := JSONValue.arr [JSONValue.null, JSONValue.str "ff", JSONValue.num 4],
    Err := JSONValue.null }

/-- An authorize response carrying `true`. -/
def rpcAuthTrue : JSONRPCLine :=
  { ID := "auth", Method := "", Params := [], Result := JSONValue.bool true,
    Err := JSONValue.null }

/-- An authorize response carrying `false`. -/
def rpcAuthFalse : JSONRPCLine :=
  { ID := "auth", Method := "", Params := [], Result := JSONValue.bool false,
    Err := JSONValue.null }

/-- C1: a subscribe response whose result is an array of ≥ 3 elements, whose
element 1 is a hex string decoding to a 32-bit value, and whose element 2
is a number truncating to a width in [6, 16], makes `handleSubScribeResponse`
store exactly the decoded session id and width and set status SubScribed. -/
theorem claim_C1 (s : UpSession) (rpcData : JSONRPCLine) (result : List JSONValue)
    (sessionIDHex : String) (sessionID : Nat) (q : Rat)
    (hres : rpcData.Result = JSONValue.arr result)
    (hlen : 3 ≤ result.length)
    (h1 : result[1]? = some (JSONValue.str sessionIDHex))
    (hsid : parseHexUint32 sessionIDHex = some sessionID)
    (h2 : result[2]? = some (JSONValue.num q))
    (hlo : 6 ≤ truncRat q) (hhi : truncRat q ≤ 16) :
    handleSubScribeResponse rpcData s =
      { s with sessionID := sessionID, extraNonce2Size := truncRat q,
               stat := AuthorizeStat.StatSubScribed } := by
  have h3 : ¬ (result.length < 3) := by omega
  have h6 : ¬ (truncRat q < 6) := by omega
  simp [handleSubScribeResponse, hres, h3, h1, hsid, h2, h6]

/-- C1 witness: the theorem applied at a concrete subscribe response. -/
theorem claim_C1_witness :
    handleSubScribeResponse rpcSubOk s0 =
      { s0 with sessionID := 255, extraNonce2Size := 8,
                stat := AuthorizeStat.StatSubScribed } :=
  claim_C1 s0 rpcSubOk [JSONValue.null, JSONValue.str "ff", JSONValue.num 8]
    "ff" 255 8 rfl (by decide) rfl (by decide) rfl (by decide) (by decide)

/-- C2: `handleAuthorizeResponse` sets Authorized exactly when the result
is the boolean `true`; any other result closes the session. -/
theorem claim_C2 (s : UpSession) (rpcData : JSONRPCLine) :
    ((handleAuthorizeResponse rpcData s).stat = AuthorizeStat.StatAuthorized ↔
      rpcData.Result = JSONValue.bool true) ∧
    (rpcData.Result ≠ JSONValue.bool true →
      (handleAuthorizeResponse rpcData s).stat = AuthorizeStat.StatDisconnected ∧
      (handleAuthorizeResponse rpcData s).connClosed = true) := by
  rcases hr : rpcData.Result with _ | b | q | sv | items | fields
  case bool => cases b <;> simp [handleAuthorizeResponse, JSONValue.asBool, hr, close]
  all_goals simp [handleAuthorizeResponse, JSONValue.asBool, hr, close]

/-- C2 witness: the theorem applied at concrete true/false responses. -/
theorem claim_C2_witness :
    (handleAuthorizeResponse rpcAuthTrue s0).stat = AuthorizeStat.StatAuthorized ∧
    (handleAuthorizeResponse rpcAuthFalse s0).stat = AuthorizeStat.StatDisconnected ∧
    (handleAuthorizeResponse rpcAuthFalse s0).connClosed = true :=
  ⟨(claim_C2 s0 rpcAuthTrue).1.mpr rfl,
   (claim_C2 s0 rpcAuthFalse).2 (by simp [rpcAuthFalse])⟩

/-- C3: a subscribe response that is well-formed except that the decoded
width is < 6 closes the session; status becomes Disconnected and is never
SubScribed. -/
theorem claim_C3 (s : UpSession) (rpcData : JSONRPCLine) (result : List JSONValue)
    (sessionIDHex : String) (sessionID : Nat) (q : Rat)
    (hres : rpcData.Result = JSONValue.arr result)
    (hlen : 3 ≤ result.length)
    (h1 : result[1]? = some (JSONValue.str sessionIDHex))
    (hsid : parseHexUint32 sessionIDHex = some sessionID)
    (h2 : result[2]? = some (JSONValue.num q))
    (hw : truncRat q < 6) :
    (handleSubScribeResponse rpcData s).stat = AuthorizeStat.StatDisconnected ∧
    (handleSubScribeResponse rpcData s).connClosed = true ∧
    (handleSubScribeResponse rpcData s).stat ≠ AuthorizeStat.StatSubScribed := by
  have h3 : ¬ (result.length < 3) := by omega
  simp [handleSubScribeResponse, hres, h3, h1, hsid, h2, hw, close]

/-- C3 witness: the theorem applied at a concrete width-4 response. -/
theorem claim_C3_witness :
    (handleSubScribeResponse rpcSubShort s0).stat = AuthorizeStat.StatDisconnected ∧
    (handleSubScribeResponse rpcSubShort s0).connClosed = true ∧
    (handleSubScribeResponse rpcSubShort s0).stat ≠ AuthorizeStat.StatSubScribed :=
  claim_C3 s0 rpcSubShort [JSONValue.null, JSONValue.str "ff", JSONValue.num 4]
    "ff" 255 4 rfl (by decide) rfl (by decide) rfl (by decide)

/-- C10: the compatibility check is not atomic — on a width < 6 the decoded
session id and width have already been written when the session is closed. -/
theorem claim_C10 (s : UpSession) (rpcData : JSONRPCLine) (result : List JSONValue)
    (sessionIDHex : String) (sessionID : Nat) (q : Rat)
    (hres : rpcData.Result = JSONValue.arr result)
    (hlen : 3 ≤ result.length)
    (h1 : result[1]? = some (JSONValue.str sessionIDHex))
    (hsid : parseHexUint32 sessionIDHex = some sessionID)
    (h2 : result[2]? = some (JSONValue.num q))
    (hw : truncRat q < 6) :
    handleSubScribeResponse rpcData s =
      { s with sessionID := sessionID, extraNonce2Size := truncRat q,
               stat := AuthorizeStat.StatDisconnected, connClosed := true } := by
  have h3 : ¬ (result.length < 3) := by omega
  simp [handleSubScribeResponse, hres, h3, h1, hsid, h2, hw, close]

/-- C10 witness: the theorem applied at a concrete width-4 response. -/
theorem claim_C10_witness :
    handleSubScribeResponse rpcSubShort s0 =
      { s0 with sessionID := 255, extraNonce2Size := 4,
                stat := AuthorizeStat.StatDisconnected, connClosed := true } :=
  claim_C10 s0 rpcSubShort [JSONValue.null, JSONValue.str "ff", JSONValue.num 4]
    "ff" 255 4 rfl (by decide) rfl (by decide) rfl (by decide)


/-- C4: the spec says the dispatcher reads the fixed 4-byte Ex-Message
header and discards `length − 4` body bytes; the source instead calls
`bufio`'s `ReadBytes(4)`, whose argument is a *delimiter byte*, so on the
header `[0x7F, 0x01, 0x04, 0x00]` (type 1, declared length 4) it consumes
only the 3 bytes up to the first `0x04` and then panics computing the
16-bit length from the 1-byte slice `header[2:]`. -/
theorem claim_C4_code_bug :
    initReadExMessage [127, 1, 4, 0] = ExMsgOutcome.panicked ∧
    initReadExMessage [127, 1, 5, 0, 9] = ExMsgOutcome.closed :=
  ⟨rfl, rfl⟩

/-- C5: the spec says a failed handshake send is fatal; the source discards
the results of all four `writeJSONRequestToServer` calls and never assigns
`err`, so `initSendRequest` returns nil even when every write fails, `Init`
does not close, and the response-consumption loop still runs (here all the
way to Authorized). -/
theorem claim_C5_code_bug :
    initSendRequest (fun _ => some GoErr.connectionClosed) = none ∧
    Init true (fun _ => some GoErr.connectionClosed)
        [InboundUnit.line (some rpcAuthTrue)] s0 =
      some { s0 with stat := AuthorizeStat.StatAuthorized } :=
  ⟨rfl, by decide⟩

/-- C6 counterexample: `connect` does leave the Disconnected state — a
fresh session is Disconnected and a successful `connect` makes it
Connected, so Disconnected is not terminal for every operation. -/
theorem claim_C6_counterexample :
    s0.stat = AuthorizeStat.StatDisconnected ∧
    (connect true s0).1.stat ≠ AuthorizeStat.StatDisconnected := by
  decide

/-- C6 (amended): once status is Disconnected, `close` and the response
consumption loop never leave it (the loop exits at once); `connect` is the
sole exception, restarting the lifecycle toward Connected on a successful
dial and back to Disconnected on a failed one. -/
theorem claim_C6 (s : UpSession) (units : List InboundUnit) (dialOk : Bool)
    (h : s.stat = AuthorizeStat.StatDisconnected) :
    (close s).stat = AuthorizeStat.StatDisconnected ∧
    initLoop units s = some s ∧
    (connect dialOk s).1.stat =
      (if dialOk then AuthorizeStat.StatConnected else AuthorizeStat.StatDisconnected) := by
  refine ⟨rfl, ?_, ?_⟩
  · rw [initLoop.eq_def]
    simp [h]
  · by_cases hd : dialOk <;> simp [connect, hd]

/-- C6 witness: the amended theorem applied at a fresh session. -/
theorem claim_C6_witness :
    (close s0).stat = AuthorizeStat.StatDisconnected ∧
    initLoop [] s0 = some s0 ∧
    (connect true s0).1.stat = AuthorizeStat.StatConnected := by
  have h := claim_C6 s0 [] true rfl
  simpa using h


/-- One capability step never touches status, the connection flag, or the
event channel. -/
theorem applyCapability_preserves (s : UpSession) (c : JSONValue) :
    (applyCapability s c).stat = s.stat ∧
    (applyCapability s c).connClosed = s.connClosed ∧
    (applyCapability s c).eventChannel = s.eventChannel := by
  unfold applyCapability
  split <;> simp

/-- The capabilities fold never touches status, the connection flag, or
the event channel. -/
theorem foldl_applyCapability_preserves (l : List JSONValue) (s : UpSession) :
    (l.foldl applyCapability s).stat = s.stat ∧
    (l.foldl applyCapability s).connClosed = s.connClosed ∧
    (l.foldl applyCapability s).eventChannel = s.eventChannel := by
  induction l generalizing s with
  | nil => exact ⟨rfl, rfl, rfl⟩
  | cons c rest ih =>
    have hc := applyCapability_preserves s c
    have hr := ih (applyCapability s c)
    exact ⟨hr.1.trans hc.1, hr.2.1.trans hc.2.1, hr.2.2.trans hc.2.2⟩

/-- A capabilities response listing `verrol` and `subres`. -/
def rpcCaps : JSONRPCLine :=
  { ID := "caps", Method := "", Params := [],
    Result := JSONValue.obj
      [("capabilities", JSONValue.arr [JSONValue.str "verrol", JSONValue.str "subres"])],
    Err := JSONValue.null }

/-- A capabilities response with an empty capability list. -/
def rpcCapsEmpty : JSONRPCLine :=
  { ID := "caps", Method := "", Params := [],
    Result := JSONValue.obj [("capabilities", JSONValue.arr [])],
    Err := JSONValue.null }

/-- C7: `handleGetCapsResponse` never closes the session or changes status
(in particular on malformed shapes); the capability list
`["verrol", "subres"]` sets both capability booleans, and the empty list
leaves the session untouched. -/
theorem claim_C7 (s : UpSession) (rpcData : JSONRPCLine) :
    ((handleGetCapsResponse rpcData s).stat = s.stat ∧
     (handleGetCapsResponse rpcData s).connClosed = s.connClosed) ∧
    (rpcData.Result = JSONValue.obj
        [("capabilities", JSONValue.arr [JSONValue.str "verrol", JSONValue.str "subres"])] →
      (handleGetCapsResponse rpcData s).serverCapsVerRol = true ∧
      (handleGetCapsResponse rpcData s).serverCapsSubRes = true) ∧
    (rpcData.Result = JSONValue.obj [("capabilities", JSONValue.arr [])] →
      handleGetCapsResponse rpcData s = s) := by
  refine ⟨?_, ?_, ?_⟩
  · unfold handleGetCapsResponse
    exact ⟨(foldl_applyCapability_preserves _ _).1, (foldl_applyCapability_preserves _ _).2.1⟩
  · intro h
    simp [handleGetCapsResponse, h, lookupObj, JSONValue.asObj, JSONValue.asArr, applyCapability]
  · intro h
    simp [handleGetCapsResponse, h, lookupObj, JSONValue.asObj, JSONValue.asArr]

/-- C7 witness: the theorem applied at the two concrete capability
responses. -/
theorem claim_C7_witness :
    ((handleGetCapsResponse rpcCaps s0).serverCapsVerRol = true ∧
     (handleGetCapsResponse rpcCaps s0).serverCapsSubRes = true) ∧
    handleGetCapsResponse rpcCapsEmpty s0 = s0 :=
  ⟨(claim_C7 s0 rpcCaps).2.1 rfl, (claim_C7 s0 rpcCapsEmpty).2.2 rfl⟩

/-- The session state right after a successful `connect` from fresh. -/
def sConnected : UpSession := (connect true s0).1

/-- C8: a JSON-decode failure on an inbound line leaves the session (and
its connection) untouched, and the handshake loop treats the unit as
consumed, continuing with the remaining stream. -/
theorem claim_C8 (s : UpSession) (rest : List InboundUnit)
    (h : ¬ (s.stat = AuthorizeStat.StatAuthorized ∨
            s.stat = AuthorizeStat.StatDisconnected ∨
            s.stat = AuthorizeStat.StatConnecting)) :
    initReadLine none s = s ∧
    (initReadLine none s).connClosed = s.connClosed ∧
    initLoop (InboundUnit.line none :: rest) s = initLoop rest s := by
  refine ⟨rfl, rfl, ?_⟩
  rw [initLoop.eq_def]
  simp [h, initHandleResponse, initReadLine]

/-- C8 witness: the theorem applied at a connected session. -/
theorem claim_C8_witness :
    initReadLine none sConnected = sConnected ∧
    (initReadLine none sConnected).connClosed = sConnected.connClosed ∧
    initLoop [InboundUnit.line none] sConnected = initLoop [] sConnected :=
  claim_C8 sConnected [] (by decide)


/-- `handleSetVersionMask` leaves `eventChannel` untouched. -/
theorem handleSetVersionMask_eventChannel (rpcData : JSONRPCLine) (s : UpSession) :
    (handleSetVersionMask rpcData s).eventChannel = s.eventChannel := by
  unfold handleSetVersionMask
  repeat' split
  all_goals rfl

/-- `handleSubScribeResponse` leaves `eventChannel` untouched. -/
theorem handleSubScribeResponse_eventChannel (rpcData : JSONRPCLine) (s : UpSession) :
    (handleSubScribeResponse rpcData s).eventChannel = s.eventChannel := by
  unfold handleSubScribeResponse
  repeat' split
  all_goals simp [close, apply_ite]

/-- `handleGetCapsResponse` leaves `eventChannel` untouched. -/
theorem handleGetCapsResponse_eventChannel (rpcData : JSONRPCLine) (s : UpSession) :
    (handleGetCapsResponse rpcData s).eventChannel = s.eventChannel :=
  (foldl_applyCapability_preserves _ _).2.2

/-- `handleAuthorizeResponse` leaves `eventChannel` untouched. -/
theorem handleAuthorizeResponse_eventChannel (rpcData : JSONRPCLine) (s : UpSession) :
    (handleAuthorizeResponse rpcData s).eventChannel = s.eventChannel := by
  unfold handleAuthorizeResponse
  repeat' split
  all_goals simp [close]

/-- Routing a decoded line leaves `eventChannel` untouched. -/
theorem dispatchRpcLine_eventChannel (rpcData : JSONRPCLine) (s : UpSession) :
    (dispatchRpcLine rpcData s).eventChannel = s.eventChannel := by
  unfold dispatchRpcLine
  split
  · split
    all_goals first
      | rfl
      | exact handleSetVersionMask_eventChannel _ _
  · split
    all_goals first
      | rfl
      | exact handleSubScribeResponse_eventChannel _ _
      | exact handleGetCapsResponse_eventChannel _ _
      | exact handleAuthorizeResponse_eventChannel _ _

/-- `initReadLine` leaves `eventChannel` untouched. -/
theorem initReadLine_eventChannel (decoded : Option JSONRPCLine) (s : UpSession) :
    (initReadLine decoded s).eventChannel = s.eventChannel := by
  cases decoded with
  | none => rfl
  | some rpcData => exact dispatchRpcLine_eventChannel rpcData s

/-- `initHandleResponse` leaves `eventChannel` untouched whenever it does
not panic. -/
theorem initHandleResponse_eventChannel (u : InboundUnit) (s s2 : UpSession)
    (h : initHandleResponse u s = some s2) :
    s2.eventChannel = s.eventChannel := by
  cases u with
  | ioError =>
    simp only [initHandleResponse] at h
    injection h with h
    subst h
    rfl
  | ex bytes =>
    simp only [initHandleResponse] at h
    split at h
    · injection h with h; subst h; rfl
    · injection h with h; subst h; rfl
    · exact absurd h (by simp)
  | line decoded =>
    simp only [initHandleResponse] at h
    injection h with h
    subst h
    exact initReadLine_eventChannel decoded s

/-- The response-consumption loop leaves `eventChannel` untouched whenever
it does not panic. -/
theorem initLoop_eventChannel (units : List InboundUnit) (s s2 : UpSession)
    (h : initLoop units s = some s2) :
    s2.eventChannel = s.eventChannel := by
  induction units generalizing s with
  | nil =>
    rw [initLoop.eq_def] at h
    split at h <;> (injection h with h; subst h; rfl)
  | cons u rest ih =>
    rw [initLoop.eq_def] at h
    split at h
    · injection h with h; subst h; rfl
    · simp only [] at h
      cases hm : initHandleResponse u s with
      | none => rw [hm] at h; exact absurd h (by simp)
      | some smid =>
        rw [hm] at h
        exact (ih smid h).trans (initHandleResponse_eventChannel u s smid hm)

/-- C9: a fresh session has nil `eventChannel`, Disconnected status, and an
empty downstream map; and no modelled operation — connect, close, any unit
handler, the whole handshake (`Init`), or the event-loop attachment — ever
assigns `eventChannel`, so it stays nil and `SendEvent`/`AddStratumSession`
always act on a nil channel. -/
theorem claim_C9 (subAccount : String) (poolIndex : Nat) :
    (NewUpSession subAccount poolIndex).eventChannel = none ∧
    (NewUpSession subAccount poolIndex).stat = AuthorizeStat.StatDisconnected ∧
    (NewUpSession subAccount poolIndex).stratumSessions = [] ∧
    (∀ dialOk s, ((connect dialOk s).1).eventChannel = s.eventChannel) ∧
    (∀ s, (close s).eventChannel = s.eventChannel) ∧
    (∀ u s s2, initHandleResponse u s = some s2 → s2.eventChannel = s.eventChannel) ∧
    (∀ units s s2, initLoop units s = some s2 → s2.eventChannel = s.eventChannel) ∧
    (∀ dialOk writes units s s2, Init dialOk writes units s = some s2 →
        s2.eventChannel = s.eventChannel) ∧
    (∀ sid handle s, (addStratumSession sid handle s).eventChannel = s.eventChannel) := by
  have hconn : ∀ (dialOk : Bool) (s : UpSession),
      ((connect dialOk s).1).eventChannel = s.eventChannel := by
    intro dialOk s
    unfold connect
    split <;> rfl
  refine ⟨rfl, rfl, rfl, hconn, fun s => rfl, initHandleResponse_eventChannel,
    initLoop_eventChannel, ?_, fun sid handle s => rfl⟩
  intro dialOk writes units s s2 h
  simp only [Init] at h
  split at h
  · injection h with h; subst h; exact hconn dialOk s
  · split at h
    · injection h with h; subst h; exact hconn dialOk s
    · exact (initLoop_eventChannel units _ s2 h).trans (hconn dialOk s)

/-- C9 witness: the theorem applied at a fresh session, with the `Init`
conjunct discharged on a concrete successful handshake run. -/
theorem claim_C9_witness :
    s0.eventChannel = none ∧
    s0.stratumSessions = [] ∧
    sConnected.eventChannel = s0.eventChannel := by
  have h := claim_C9 "acct" 0
  exact ⟨h.1, h.2.2.1, h.2.2.2.2.2.2.2.1 true (fun _ => none) [] s0 sConnected rfl⟩

end BtcAgent
